import Mathlib

/-
Verification of the meatycapture Tauri bootstrap.

The repository has two Rust source files, src-tauri/src/main.rs and
src-tauri/src/lib.rs.  Each constructs a tauri Builder, registers the
filesystem plugin, registers the shell plugin when the compile target is
neither android nor ios, and then calls run with the generated context,
panicking via expect on failure.  We embed that bootstrap shallowly:

  * TargetOS enumerates the compile targets that the cfg attribute in the
    source distinguishes (android and ios against the desktop targets).
  * Builder mirrors tauri Builder as observed by this code: the ordered
    list of registered plugins.  Builder.default and Builder.plugin mirror
    the two builder methods the code calls.
  * exec describes one process run of the entry point.  The host runtime
    (the run call of the tauri Builder) is an external collaborator, so it
    is a parameter: given the finished builder and the generated context it
    either starts the event loop and blocks forever (none) or fails with
    an error value (some e).  exec returns the trace of externally visible
    actions (plugin registrations followed by the single run call) and the
    process outcome: blocked forever in the event loop, or panicked with
    the message that Rust expect produces.
  * execProcess additionally receives the argv of the process; main never
    reads it (the source never touches std::env), so the embedded function
    ignores it, exactly as the source does.
  * buildSt is the state-threaded lift of the configuration construction:
    the source reads and writes no global mutable state while building the
    configuration, so the lift passes any ambient state through untouched.

main.rs and lib.rs are embedded separately, namespace MainRs from main.rs
and namespace LibRs from lib.rs, so that their equivalence is a theorem
rather than an artefact of sharing one definition.
-/

/-- Compile targets distinguished by the cfg attribute in the source:
the gate is cfg(not(any(target_os = "android", target_os = "ios"))),
so android and ios are the mobile-class targets and the remaining
desktop targets are represented by linux, macos and windows. -/
inductive TargetOS where
  | android
  | ios
  | linux
  | macos
  | windows
deriving DecidableEq

/-- Capability plugins registered by the bootstrap: tauri_plugin_fs and
tauri_plugin_shell. -/
inductive Plugin where
  | filesystem
  | shell
deriving DecidableEq

/-- The tauri Builder as observed by this code: the ordered list of
registered capability plugins. -/
structure Builder where
  plugins : List Plugin
deriving DecidableEq

/-- tauri Builder default: no plugin registered yet. -/
def Builder.default : Builder := ⟨[]⟩

/-- Builder.plugin appends one plugin registration to the builder. -/
def Builder.plugin (b : Builder) (p : Plugin) : Builder :=
  ⟨b.plugins ++ [p]⟩

/-- The predicate of the cfg gate in both source files:
any(target_os = "android", target_os = "ios"). -/
def cfgAnyMobile (os : TargetOS) : Bool :=
  os == TargetOS.android || os == TargetOS.ios

/-- A target is desktop-class when the cfg gate of the source admits the
shell plugin, i.e. the target is neither android nor ios. -/
def desktopClass (os : TargetOS) : Bool :=
  !cfgAnyMobile os

/-- Externally visible actions of one bootstrap run: registering a plugin,
and the single transfer of control to the host runtime run call, which
receives the finished builder and the generated context. -/
inductive BootAction (Ctx : Type) where
  | registerPlugin (p : Plugin)
  | runCall (b : Builder) (c : Ctx)
deriving DecidableEq

/-- Outcome of the process: blocked forever inside the host event loop, or
terminated by a panic carrying the diagnostic message. -/
inductive ProcessOutcome where
  | runningForever
  | panicked (msg : String)
deriving DecidableEq

/-- Rust Result.expect on an Err value panics with the supplied message,
a colon and a space, then the rendering of the error value. -/
def rustExpect (msg diag : String) : String :=
  msg ++ ": " ++ diag

/-- Recognises the run-call action in a trace. -/
def BootAction.isRunCall {Ctx : Type} : BootAction Ctx → Bool
  | .runCall _ _ => true
  | .registerPlugin _ => false

/-- The actions a trace performs strictly after its first run call. -/
def actionsAfterRun {Ctx : Type} (t : List (BootAction Ctx)) : List (BootAction Ctx) :=
  (t.dropWhile fun a => !a.isRunCall).drop 1

/-- The sequence of plugin registrations recorded in a trace, in order. -/
def registeredPlugins {Ctx : Type} (t : List (BootAction Ctx)) : List Plugin :=
  t.filterMap fun a =>
    match a with
    | .registerPlugin p => some p
    | .runCall _ _ => none

/-- The two bootstrap states the spec describes for this component. -/
inductive BootState where
  | notStarted
  | running
deriving DecidableEq

namespace MainRs

/-- Embedded from fn main in src-tauri/src/main.rs: let mut builder =
tauri Builder default .plugin(tauri_plugin_fs init); then, under
cfg(not(any(target_os = "android", target_os = "ios"))), builder =
builder.plugin(tauri_plugin_shell init). -/
def build (os : TargetOS) : Builder :=
  let builder := Builder.default.plugin Plugin.filesystem
  if !cfgAnyMobile os then builder.plugin Plugin.shell else builder

/-- The expect message literal in main.rs. -/
def expectMsg : String := "error while running tauri application"

/-- Embedded from fn main in src-tauri/src/main.rs: build the
configuration, then call run on it with the generated context and expect
the result.  hostRun is the external host runtime: none means the event
loop started and blocks forever, some e means startup failed with error
e, rendered for the panic message by render. -/
def exec {Ctx Err : Type} (os : TargetOS)
    (hostRun : Builder → Ctx → Option Err) (render : Err → String)
    (ctx : Ctx) : List (BootAction Ctx) × ProcessOutcome :=
  let builder := build os
  ((builder.plugins.map BootAction.registerPlugin) ++ [BootAction.runCall builder ctx],
    match hostRun builder ctx with
    | none => ProcessOutcome.runningForever
    | some e => ProcessOutcome.panicked (rustExpect expectMsg (render e)))

/-- The process entry point with its command line: fn main in main.rs
declares no parameters and never reads std::env, so the embedded function
discards argv. -/
def execProcess {Ctx Err : Type} (_argv : List String) (os : TargetOS)
    (hostRun : Builder → Ctx → Option Err) (render : Err → String)
    (ctx : Ctx) : List (BootAction Ctx) × ProcessOutcome :=
  exec os hostRun render ctx

/-- State-threaded lift of the configuration construction in main.rs: the
construction touches no global mutable state (the source reads and writes
no static items), so the ambient state passes through unchanged. -/
def buildSt {σ : Type} (os : TargetOS) (g : σ) : Builder × σ :=
  (build os, g)

end MainRs

namespace LibRs

/-- Embedded from pub fn run in src-tauri/src/lib.rs: let mut builder =
tauri Builder default .plugin(tauri_plugin_fs init); then, under
cfg(not(any(target_os = "android", target_os = "ios"))), builder =
builder.plugin(tauri_plugin_shell init). -/
def build (os : TargetOS) : Builder :=
  let builder := Builder.default.plugin Plugin.filesystem
  if !cfgAnyMobile os then builder.plugin Plugin.shell else builder

/-- The expect message literal in lib.rs. -/
def expectMsg : String := "error while running tauri application"

/-- Embedded from pub fn run in src-tauri/src/lib.rs: build the
configuration, then call run on it with the generated context and expect
the result. -/
def exec {Ctx Err : Type} (os : TargetOS)
    (hostRun : Builder → Ctx → Option Err) (render : Err → String)
    (ctx : Ctx) : List (BootAction Ctx) × ProcessOutcome :=
  let builder := build os
  ((builder.plugins.map BootAction.registerPlugin) ++ [BootAction.runCall builder ctx],
    match hostRun builder ctx with
    | none => ProcessOutcome.runningForever
    | some e => ProcessOutcome.panicked (rustExpect expectMsg (render e)))

/-- State-threaded lift of the configuration construction in lib.rs: the
construction touches no global mutable state, so the ambient state passes
through unchanged. -/
def buildSt {σ : Type} (os : TargetOS) (g : σ) : Builder × σ :=
  (build os, g)

end LibRs

/-- Claim C1: the shell capability plugin is registered if and only if the
platform classification is desktop-class (the target is neither android
nor ios): on a desktop-class build the registered plugin list is exactly
filesystem then shell, and on a mobile-class build it is exactly
filesystem, in both the binary entry point and the library entry point. -/
theorem c1_shell_iff_desktop (os : TargetOS) :
    ((MainRs.build os).plugins
        = if cfgAnyMobile os then [Plugin.filesystem]
          else [Plugin.filesystem, Plugin.shell])
    ∧ (Plugin.shell ∈ (MainRs.build os).plugins ↔ desktopClass os = true)
    ∧ Plugin.filesystem ∈ (MainRs.build os).plugins
    ∧ ((LibRs.build os).plugins
        = if cfgAnyMobile os then [Plugin.filesystem]
          else [Plugin.filesystem, Plugin.shell])
    ∧ (Plugin.shell ∈ (LibRs.build os).plugins ↔ desktopClass os = true) := by
  cases os <;> decide

/-- Claim C2: if the host runtime run call fails to start the event loop,
the bootstrap panics with a diagnostic built from the expect message, the
outcome is never the running state, there is exactly one run call with no
retry, and no action is performed after the failed run call; both entry
points behave this way. -/
theorem c2_fatal_on_run_failure {Ctx Err : Type} (os : TargetOS)
    (hostRun : Builder → Ctx → Option Err) (render : Err → String)
    (ctx : Ctx) (e : Err)
    (h : hostRun (MainRs.build os) ctx = some e) :
    (MainRs.exec os hostRun render ctx).snd
        = ProcessOutcome.panicked (rustExpect MainRs.expectMsg (render e))
    ∧ (MainRs.exec os hostRun render ctx).snd ≠ ProcessOutcome.runningForever
    ∧ actionsAfterRun (MainRs.exec os hostRun render ctx).fst = []
    ∧ (MainRs.exec os hostRun render ctx).fst.countP BootAction.isRunCall = 1
    ∧ (LibRs.exec os hostRun render ctx).snd
        = ProcessOutcome.panicked (rustExpect LibRs.expectMsg (render e)) := by
  have h' : hostRun (LibRs.build os) ctx = some e := h
  refine ⟨?_, ?_, ?_, ?_, ?_⟩
  · simp [MainRs.exec, h]
  · simp [MainRs.exec, h]
  · cases os <;> rfl
  · cases os <;> rfl
  · simp [LibRs.exec, h']

/-- Witness for claim C2 at a concrete input: a host runtime that always
fails on a linux target. -/
theorem c2_fatal_on_run_failure_witness :
    (fun (_ : Builder) (_ : Unit) => (some () : Option Unit))
        (MainRs.build TargetOS.linux) () = some ()
    ∧ (MainRs.exec TargetOS.linux
          (fun (_ : Builder) (_ : Unit) => (some () : Option Unit))
          (fun _ => "boom") ()).snd
        = ProcessOutcome.panicked (rustExpect MainRs.expectMsg "boom") :=
  ⟨rfl,
    (c2_fatal_on_run_failure TargetOS.linux
      (fun _ _ => some ()) (fun _ => "boom") () () rfl).1⟩

/-- Claim C3: for every platform classification the filesystem plugin is
registered first, and whenever the shell plugin is present the filesystem
plugin precedes it in the registration sequence. -/
theorem c3_filesystem_first (os : TargetOS) :
    (MainRs.build os).plugins.head? = some Plugin.filesystem
    ∧ (Plugin.shell ∈ (MainRs.build os).plugins →
        (MainRs.build os).plugins.indexOf Plugin.filesystem
          < (MainRs.build os).plugins.indexOf Plugin.shell) := by
  cases os <;> decide

/-- Witness for claim C3 at a concrete input: on a linux target both
plugins are present and filesystem comes before shell. -/
theorem c3_filesystem_first_witness :
    Plugin.shell ∈ (MainRs.build TargetOS.linux).plugins
    ∧ (MainRs.build TargetOS.linux).plugins.indexOf Plugin.filesystem
        < (MainRs.build TargetOS.linux).plugins.indexOf Plugin.shell :=
  ⟨by decide, (c3_filesystem_first TargetOS.linux).2 (by decide)⟩

/-- Claim C4: for a fixed platform classification the registered plugin
sequence is the same on every invocation, whatever the command line, host
runtime behaviour, error rendering or generated context: it is exactly
the plugin list of the built configuration, which always holds filesystem
and holds shell exactly on desktop-class targets. -/
theorem c4_registration_determined_by_platform
    {Ctx₁ Err₁ Ctx₂ Err₂ : Type} (os : TargetOS)
    (argv₁ argv₂ : List String)
    (host₁ : Builder → Ctx₁ → Option Err₁) (render₁ : Err₁ → String) (ctx₁ : Ctx₁)
    (host₂ : Builder → Ctx₂ → Option Err₂) (render₂ : Err₂ → String) (ctx₂ : Ctx₂) :
    registeredPlugins (MainRs.execProcess argv₁ os host₁ render₁ ctx₁).fst
      = registeredPlugins (MainRs.execProcess argv₂ os host₂ render₂ ctx₂).fst
    ∧ registeredPlugins (MainRs.execProcess argv₁ os host₁ render₁ ctx₁).fst
      = (MainRs.build os).plugins
    ∧ Plugin.filesystem ∈ (MainRs.build os).plugins
    ∧ (Plugin.shell ∈ (MainRs.build os).plugins ↔ desktopClass os = true) := by
  cases os <;> exact ⟨rfl, rfl, by decide, by decide⟩

/-- Claim C5: when the host runtime starts successfully the bootstrap
never returns control: the outcome is the blocked running state, no action
follows the single run call, and the component state machine has exactly
the two states notStarted and running. -/
theorem c5_success_never_returns {Ctx Err : Type} (os : TargetOS)
    (hostRun : Builder → Ctx → Option Err) (render : Err → String) (ctx : Ctx)
    (h : hostRun (MainRs.build os) ctx = none) :
    (MainRs.exec os hostRun render ctx).snd = ProcessOutcome.runningForever
    ∧ actionsAfterRun (MainRs.exec os hostRun render ctx).fst = []
    ∧ (MainRs.exec os hostRun render ctx).fst.countP BootAction.isRunCall = 1
    ∧ (∀ s : BootState, s = BootState.notStarted ∨ s = BootState.running) := by
  refine ⟨?_, ?_, ?_, ?_⟩
  · simp [MainRs.exec, h]
  · cases os <;> rfl
  · cases os <;> rfl
  · intro s; cases s
    · exact Or.inl rfl
    · exact Or.inr rfl

/-- Witness for claim C5 at a concrete input: a host runtime that always
starts successfully on a linux target. -/
theorem c5_success_never_returns_witness :
    (fun (_ : Builder) (_ : Unit) => (none : Option Unit))
        (MainRs.build TargetOS.linux) () = none
    ∧ (MainRs.exec TargetOS.linux
          (fun (_ : Builder) (_ : Unit) => (none : Option Unit))
          (fun _ => "") ()).snd = ProcessOutcome.runningForever :=
  ⟨rfl,
    (c5_success_never_returns TargetOS.linux
      (fun _ _ => none) (fun _ => "") () rfl).1⟩

/-- Claim C6: constructing the startup configuration twice with the same
platform classification yields the same registered plugin list, and the
construction leaves any ambient global state untouched, in both entry
points. -/
theorem c6_construction_idempotent {σ : Type} (os : TargetOS) (g : σ) :
    ((MainRs.buildSt os ((MainRs.buildSt os g).snd)).fst).plugins
      = ((MainRs.buildSt os g).fst).plugins
    ∧ (MainRs.buildSt os ((MainRs.buildSt os g).snd)).snd = g
    ∧ ((LibRs.buildSt os ((LibRs.buildSt os g).snd)).fst).plugins
      = ((LibRs.buildSt os g).fst).plugins
    ∧ (LibRs.buildSt os ((LibRs.buildSt os g).snd)).snd = g :=
  ⟨rfl, rfl, rfl, rfl⟩

/-- Claim C7: in every execution the trace is exactly the plugin
registrations followed by the single run call, so every registration,
including the filesystem plugin, completes strictly before control
transfers to the blocking run entry point. -/
theorem c7_registrations_before_run {Ctx Err : Type} (os : TargetOS)
    (hostRun : Builder → Ctx → Option Err) (render : Err → String) (ctx : Ctx) :
    (MainRs.exec os hostRun render ctx).fst
      = (MainRs.build os).plugins.map BootAction.registerPlugin
          ++ [BootAction.runCall (MainRs.build os) ctx]
    ∧ (MainRs.exec os hostRun render ctx).fst.getLast?
      = some (BootAction.runCall (MainRs.build os) ctx)
    ∧ (MainRs.exec os hostRun render ctx).fst.dropLast
      = (MainRs.build os).plugins.map BootAction.registerPlugin
    ∧ Plugin.filesystem ∈ (MainRs.build os).plugins := by
  cases os <;> exact ⟨rfl, rfl, rfl, by decide⟩

/-- Claim C8: the bootstrap parses no command line arguments: two
invocations differing only in argv produce identical traces and
outcomes. -/
theorem c8_argv_ignored {Ctx Err : Type} (argv₁ argv₂ : List String)
    (os : TargetOS) (hostRun : Builder → Ctx → Option Err)
    (render : Err → String) (ctx : Ctx) :
    MainRs.execProcess argv₁ os hostRun render ctx
      = MainRs.execProcess argv₂ os hostRun render ctx := rfl

/-- Claim C9: the binary entry point and the library entry point are
behaviourally equivalent: same built configuration, same trace of
registrations and run call with the same context, same outcome, and the
same expect message. -/
theorem c9_main_lib_equivalent {Ctx Err : Type} (os : TargetOS)
    (hostRun : Builder → Ctx → Option Err) (render : Err → String) (ctx : Ctx) :
    MainRs.build os = LibRs.build os
    ∧ MainRs.exec os hostRun render ctx = LibRs.exec os hostRun render ctx
    ∧ MainRs.expectMsg = LibRs.expectMsg :=
  ⟨rfl, rfl, rfl⟩

/-- Claim C10: when the run call fails the panic diagnostic is exactly the
fixed string "error while running tauri application" followed by the
rendered host error, and the message constant is identical in the binary
and the library entry point. -/
theorem c10_panic_message {Ctx Err : Type} (os : TargetOS)
    (hostRun : Builder → Ctx → Option Err) (render : Err → String)
    (ctx : Ctx) (e : Err)
    (h : hostRun (MainRs.build os) ctx = some e) :
    (MainRs.exec os hostRun render ctx).snd
      = ProcessOutcome.panicked
          ("error while running tauri application" ++ ": " ++ render e)
    ∧ (LibRs.exec os hostRun render ctx).snd
      = ProcessOutcome.panicked
          ("error while running tauri application" ++ ": " ++ render e)
    ∧ MainRs.expectMsg = "error while running tauri application"
    ∧ MainRs.expectMsg = LibRs.expectMsg := by
  have h' : hostRun (LibRs.build os) ctx = some e := h
  exact ⟨by simp [MainRs.exec, h, rustExpect, MainRs.expectMsg],
    by simp [LibRs.exec, h', rustExpect, LibRs.expectMsg], rfl, rfl⟩

/-- Witness for claim C10 at a concrete input: a host runtime that always
fails on a macos target. -/
theorem c10_panic_message_witness :
    (fun (_ : Builder) (_ : Unit) => (some () : Option Unit))
        (MainRs.build TargetOS.macos) () = some ()
    ∧ (MainRs.exec TargetOS.macos
          (fun (_ : Builder) (_ : Unit) => (some () : Option Unit))
          (fun _ => "lost display") ()).snd
        = ProcessOutcome.panicked
            ("error while running tauri application" ++ ": " ++ "lost display") :=
  ⟨rfl,
    (c10_panic_message TargetOS.macos
      (fun _ _ => some ()) (fun _ => "lost display") () () rfl).1⟩
